import Mathlib

/-!
Shallow embedding of the core pipeline of `tax_analyzer_backend.py`:
`extract_text_from_pdf`, `call_gemini_api` and the `/summarize` handler
`summarize_notice`, together with a model of Python's `json.loads` on the
subset of JSON it accepts.  External effects (the PyMuPDF parse of the
uploaded bytes, the outbound HTTP call) are passed in as explicit values,
so every function here is executable.
-/

set_option maxRecDepth 4000

/-- JSON values as produced by Python's `json.loads`.  Numbers keep their
source token text (the claims never compute with numeric values), and
objects are insertion-ordered key/value lists as in a Python `dict`. -/
inductive Json where
  | null
  | bool (b : Bool)
  | num (raw : String)
  | str (s : String)
  | arr (elems : List Json)
  | obj (members : List (String × Json))

/-- Whitespace accepted between JSON tokens by Python's `json` module. -/
def jsonWs (c : Char) : Bool :=
  c = ' ' || c = '\t' || c = '\n' || c = '\r'

def skipWs (cs : List Char) : List Char :=
  cs.dropWhile jsonWs

def hexVal (c : Char) : Option Nat :=
  if '0' ≤ c ∧ c ≤ '9' then some (c.toNat - '0'.toNat)
  else if 'a' ≤ c ∧ c ≤ 'f' then some (c.toNat - 'a'.toNat + 10)
  else if 'A' ≤ c ∧ c ≤ 'F' then some (c.toNat - 'A'.toNat + 10)
  else none

def parseHex4 (cs : List Char) : Option (Nat × List Char) :=
  match cs with
  | a :: b :: c :: d :: rest =>
    match hexVal a, hexVal b, hexVal c, hexVal d with
    | some x, some y, some z, some w => some ((((x * 16 + y) * 16 + z) * 16 + w), rest)
    | _, _, _, _ => none
  | _ => none

/-- Body of a JSON string literal, after the opening quote.  Mirrors the
escapes accepted by Python's `json` scanner; unescaped control characters
are rejected. -/
def parseStrBody : Nat → List Char → List Char → Option (String × List Char)
  | 0, _, _ => none
  | fuel + 1, cs, acc =>
    match cs with
    | [] => none
    | c :: rest =>
      if c = '"' then some (⟨acc.reverse⟩, rest)
      else if c = '\\' then
        match rest with
        | [] => none
        | e :: rest2 =>
          if e = '"' then parseStrBody fuel rest2 ('"' :: acc)
          else if e = '\\' then parseStrBody fuel rest2 ('\\' :: acc)
          else if e = '/' then parseStrBody fuel rest2 ('/' :: acc)
          else if e = 'b' then parseStrBody fuel rest2 ('\x08' :: acc)
          else if e = 'f' then parseStrBody fuel rest2 ('\x0c' :: acc)
          else if e = 'n' then parseStrBody fuel rest2 ('\n' :: acc)
          else if e = 'r' then parseStrBody fuel rest2 ('\r' :: acc)
          else if e = 't' then parseStrBody fuel rest2 ('\t' :: acc)
          else if e = 'u' then
            match parseHex4 rest2 with
            | some (n, rest3) => parseStrBody fuel rest3 (Char.ofNat n :: acc)
            | none => none
          else none
      else if c.toNat < 32 then none
      else parseStrBody fuel rest (c :: acc)

def isJDigit (c : Char) : Bool := '0' ≤ c && c ≤ '9'

/-- Integer part of a JSON number: `0` or a nonzero digit followed by digits
(leading zeros are rejected, as in Python's `json` number regex). -/
def parseIntPart : List Char → Option (List Char × List Char)
  | [] => none
  | c :: rest =>
    if c = '0' then some ([c], rest)
    else if isJDigit c then
      some (c :: rest.takeWhile isJDigit, rest.dropWhile isJDigit)
    else none

/-- Optional fractional part `.digits`; when absent (or malformed, which the
Python regex simply does not match) nothing is consumed. -/
def parseFracPart (cs : List Char) : List Char × List Char :=
  match cs with
  | '.' :: rest =>
    let ds := rest.takeWhile isJDigit
    if ds.isEmpty then ([], cs) else ('.' :: ds, rest.dropWhile isJDigit)
  | _ => ([], cs)

/-- Optional exponent part `[eE][+-]?digits`; when it does not match,
nothing is consumed. -/
def parseExpPart (cs : List Char) : List Char × List Char :=
  match cs with
  | [] => ([], cs)
  | e :: rest =>
    if e = 'e' ∨ e = 'E' then
      match rest with
      | [] => ([], cs)
      | s :: rest2 =>
        if s = '+' ∨ s = '-' then
          let ds := rest2.takeWhile isJDigit
          if ds.isEmpty then ([], cs) else (e :: s :: ds, rest2.dropWhile isJDigit)
        else
          let ds := rest.takeWhile isJDigit
          if ds.isEmpty then ([], cs) else (e :: ds, rest.dropWhile isJDigit)
    else ([], cs)

def parseNumBody (cs : List Char) : Option (List Char × List Char) :=
  match parseIntPart cs with
  | none => none
  | some (ip, r1) =>
    let fp := parseFracPart r1
    let ep := parseExpPart fp.2
    some (ip ++ fp.1 ++ ep.1, ep.2)

def parseNumber (cs : List Char) : Option (String × List Char) :=
  match cs with
  | '-' :: rest => (parseNumBody rest).map (fun p => (⟨'-' :: p.1⟩, p.2))
  | _ => (parseNumBody cs).map (fun p => (⟨p.1⟩, p.2))

/-- Matches a literal keyword character by character. -/
def stripLit : List Char → List Char → Option (List Char)
  | [], cs => some cs
  | l :: ls, c :: cs => if c = l then stripLit ls cs else none
  | _ :: _, [] => none

/-- Insertion into a Python-`dict`-like ordered association list: an existing
key keeps its position and has its value overwritten. -/
def insertMember : List (String × Json) → String → Json → List (String × Json)
  | [], k, v => [(k, v)]
  | (k0, v0) :: rest, k, v =>
    if k0 = k then (k0, v) :: rest else (k0, v0) :: insertMember rest k v

/-- Parsing mode: a single value, the remaining elements of an array, or the
remaining members of an object (with the accumulated items so far). -/
inductive PMode where
  | value
  | elems (acc : List Json)
  | members (acc : List (String × Json))

/-- Recursive JSON reader (single fuel-indexed function so that it is
structurally recursive and kernel-reducible).  In `value` mode it accepts
the literals `true`/`false`/`null` plus Python's `NaN`/`Infinity`/`-Infinity`,
strings, numbers, arrays and objects, skipping leading whitespace. -/
def parseJ : Nat → PMode → List Char → Option (Json × List Char)
  | 0, _, _ => none
  | fuel + 1, PMode.value, cs0 =>
    match skipWs cs0 with
    | [] => none
    | c :: rest =>
      if c = '"' then
        match parseStrBody (rest.length + 1) rest [] with
        | some (s, r) => some (Json.str s, r)
        | none => none
      else if c = '\x7b' then
        match skipWs rest with
        | '\x7d' :: r => some (Json.obj [], r)
        | _ => parseJ fuel (PMode.members []) rest
      else if c = '[' then
        match skipWs rest with
        | ']' :: r => some (Json.arr [], r)
        | _ => parseJ fuel (PMode.elems []) rest
      else if c = 't' then (stripLit ['r', 'u', 'e'] rest).map (fun r => (Json.bool true, r))
      else if c = 'f' then (stripLit ['a', 'l', 's', 'e'] rest).map (fun r => (Json.bool false, r))
      else if c = 'n' then (stripLit ['u', 'l', 'l'] rest).map (fun r => (Json.null, r))
      else if c = 'N' then (stripLit ['a', 'N'] rest).map (fun r => (Json.num "NaN", r))
      else if c = 'I' then
        (stripLit ['n', 'f', 'i', 'n', 'i', 't', 'y'] rest).map (fun r => (Json.num "Infinity", r))
      else if c = '-' then
        match stripLit ['I', 'n', 'f', 'i', 'n', 'i', 't', 'y'] rest with
        | some r => some (Json.num "-Infinity", r)
        | none => (parseNumber (c :: rest)).map (fun p => (Json.num p.1, p.2))
      else if isJDigit c then (parseNumber (c :: rest)).map (fun p => (Json.num p.1, p.2))
      else none
  | fuel + 1, PMode.elems acc, cs =>
    match parseJ fuel PMode.value cs with
    | none => none
    | some (v, r) =>
      match skipWs r with
      | ',' :: r2 => parseJ fuel (PMode.elems (v :: acc)) r2
      | ']' :: r2 => some (Json.arr (v :: acc).reverse, r2)
      | _ => none
  | fuel + 1, PMode.members acc, cs =>
    match skipWs cs with
    | '"' :: r =>
      match parseStrBody (r.length + 1) r [] with
      | none => none
      | some (k, r2) =>
        match skipWs r2 with
        | ':' :: r3 =>
          match parseJ fuel PMode.value r3 with
          | none => none
          | some (v, r4) =>
            match skipWs r4 with
            | ',' :: r5 => parseJ fuel (PMode.members (insertMember acc k v)) r5
            | '\x7d' :: r5 => some (Json.obj (insertMember acc k v), r5)
            | _ => none
        | _ => none
    | _ => none

/-- Model of Python's `json.loads`: parse one value and require that only
whitespace remains; any other outcome raises `JSONDecodeError`, modelled
as `none`. -/
def json_loads (s : String) : Option Json :=
  match parseJ (4 * s.length + 8) PMode.value s.data with
  | some (v, rest) => if skipWs rest = [] then some v else none
  | none => none

theorem sanity_check_01 : json_loads "\x7b\x7d" = some (Json.obj []) := rfl
theorem sanity_check_02 : json_loads "" = none := rfl
theorem sanity_check_03 : json_loads "Sorry, I cannot process this." = none := rfl
theorem sanity_check_04 : json_loads " \"a\" " = some (Json.str "a") := rfl
theorem sanity_check_05 : json_loads "true" = some (Json.bool true) := rfl
theorem sanity_check_06 : json_loads "-12.5e3" = some (Json.num "-12.5e3") := rfl
theorem sanity_check_07 : json_loads "[1, \"x\", null]" =
    some (Json.arr [Json.num "1", Json.str "x", Json.null]) := rfl
theorem sanity_check_08 : json_loads "\x7b\"noticeFor\":\"X\"\x7d" =
    some (Json.obj [("noticeFor", Json.str "X")]) := rfl
theorem sanity_check_09 : json_loads "\x7b\"a\": [true], \"b\": \x7b\x7d\x7d" =
    some (Json.obj [("a", Json.arr [Json.bool true]), ("b", Json.obj [])]) := rfl
theorem sanity_check_10 : json_loads "\x7b\"a\":1" = none := rfl
theorem sanity_check_11 : json_loads "1 2" = none := rfl
theorem sanity_check_12 : json_loads "01" = none := rfl

/-- The ASCII whitespace characters removed by Python's `str.strip()`. -/
def pySpace (c : Char) : Bool :=
  c = ' ' || c = '\t' || c = '\n' || c = '\r' || c = '\x0b' || c = '\x0c'

def stripList (l : List Char) : List Char :=
  ((l.dropWhile pySpace).reverse.dropWhile pySpace).reverse

/-- Python `str.strip()` (with no argument) on the ASCII whitespace range. -/
def pyStrip (s : String) : String := ⟨stripList s.data⟩

/-- Python slice `s[7:-3]`: the characters with index `i`, `7 ≤ i < len - 3`
(empty when the string is shorter than 10 characters). -/
def pySliceSevenNegThree (s : String) : String :=
  ⟨(s.data.take (s.data.length - 3)).drop 7⟩

/-- Outcome of `requests.post(GEMINI_API_URL, json=payload)` as far as
`call_gemini_api` observes it.
* `requestError`: the post (or reading/JSON-decoding the body) raised a
  `requests.exceptions.RequestException` (connection error, timeout, ...).
* `badBody s`: a response with HTTP status `s` arrived whose JSON body does
  not contain the path `candidates[0].content.parts[0].text`, so the
  subscription on line 121 raises `KeyError`/`IndexError`.
* `response s t`: a response with HTTP status `s` arrived and the body
  carries the candidate text `t` at that path. -/
inductive Upstream where
  | requestError
  | badBody (status : Nat)
  | response (status : Nat) (text : String)

/-- Result of running the Python function `call_gemini_api`: either it
returns a value (`None` or a string), or an exception escapes it uncaught
(only `KeyError`/`IndexError` from the body subscription can, since the
`except` clause catches only `requests.exceptions.RequestException`). -/
inductive CallResult where
  | ret (v : Option String)
  | exc

/-- `call_gemini_api` (lines 93-127).  `response.raise_for_status()` raises
`requests.exceptions.HTTPError` - a `RequestException` - exactly for status
codes 400-599, which the `except` clause turns into `None`.  On a usable
candidate text, a leading markdown fence is handled by the fixed-offset
slice: if the stripped text starts with three backticks followed by `json`,
the function returns `stripped[7:-3]`, otherwise the original text. -/
def call_gemini_api (u : Upstream) : CallResult :=
  match u with
  | .requestError => .ret none
  | .badBody status =>
    if 400 ≤ status ∧ status < 600 then .ret none else .exc
  | .response status text =>
    if 400 ≤ status ∧ status < 600 then .ret none
    else
      let stripped := pyStrip text
      if "```json".data.isPrefixOf stripped.data then
        .ret (some (pySliceSevenNegThree stripped))
      else .ret (some text)

/-- The `timeout` keyword argument of the outbound call on line 118,
`requests.post(GEMINI_API_URL, json=payload)`: no timeout is passed, and
the `requests` library applies none by default. -/
def gemini_post_timeout : Option Nat := none

/-- A `(jsonify(...), status)` pair as produced by the `/summarize` handler:
the envelope's `success` flag, its optional `message` and `summary` fields,
and the HTTP status code. -/
structure ApiResponse where
  success : Bool
  message : Option String
  summary : Option Json
  status : Nat

def respMissingFile : ApiResponse := ⟨false, some "No PDF file provided.", none, 400⟩
def respUnreadable : ApiResponse := ⟨false, some "Could not read text from PDF.", none, 500⟩
def respAiFailed : ApiResponse := ⟨false, some "Failed to get summary from AI.", none, 500⟩
def respInvalidFormat : ApiResponse := ⟨false, some "AI returned an invalid format.", none, 500⟩
def respSuccess (data : Json) : ApiResponse := ⟨true, none, some data, 200⟩

/-- What the Flask route returns to the caller: a structured response, or an
uncaught Python exception propagating to Flask as an unhandled fault.  The
boolean records whether `call_gemini_api` was invoked. -/
inductive SummarizeResult where
  | response (r : ApiResponse) (aiCalled : Bool)
  | unhandled (aiCalled : Bool)

def SummarizeResult.aiCalled : SummarizeResult → Bool
  | .response _ ai => ai
  | .unhandled ai => ai

/-- The behaviour of `fitz.open(stream=..., filetype="pdf")` together with
the page iteration on the uploaded bytes: `none` when PyMuPDF raises (the
`except Exception` branch), otherwise the list of per-page `page.get_text()`
results in page order. -/
def PdfParse := List Nat → Option (List String)

/-- `extract_text_from_pdf` (lines 81-91): starts from the empty string and
appends each page's text in order; any exception yields `None`. -/
def extract_text_from_pdf (fitzParse : PdfParse) (pdf_bytes : List Nat) : Option String :=
  match fitzParse pdf_bytes with
  | none => none
  | some pages => some (pages.foldl (fun acc t => acc ++ t) "")

/-- The `/summarize` handler `summarize_notice` (lines 187-206).  Note the
Python truthiness tests: `if not raw_text` treats both `None` and the empty
string as a failed extraction, and `if not summary_json` does the same for
the AI call's result. -/
def summarize_notice (fitzParse : PdfParse) (u : Upstream) (files : Option (List Nat)) :
    SummarizeResult :=
  match files with
  | none => .response respMissingFile false
  | some pdf_bytes =>
    match extract_text_from_pdf fitzParse pdf_bytes with
    | none => .response respUnreadable false
    | some raw_text =>
      if raw_text = "" then .response respUnreadable false
      else
        match call_gemini_api u with
        | .exc => .unhandled true
        | .ret none => .response respAiFailed true
        | .ret (some summary_json) =>
          if summary_json = "" then .response respAiFailed true
          else
            match json_loads summary_json with
            | some summary_data => .response (respSuccess summary_data) true
            | none => .response respInvalidFormat true

/-- The ten keys the prompt in `call_gemini_api` (line 97) requires of the
summary object. -/
def requiredKeys : List String :=
  ["noticeFor", "address", "ssn", "amountDue", "payBy",
   "reason", "details", "fixSteps", "paymentOptions", "helpNumber"]

def hasKey (j : Json) (k : String) : Bool :=
  match j with
  | .obj kvs => kvs.any (fun kv => kv.1 == k)
  | _ => false

def hasAllRequiredKeys (j : Json) : Bool :=
  requiredKeys.all (hasKey j)

theorem sanity_check_13 : pyStrip "  a b\n " = "a b" := rfl
theorem sanity_check_14 : pySliceSevenNegThree "```json\n1\n```" = "\n1\n" := rfl
theorem sanity_check_15 : pySliceSevenNegThree "```json" = "" := rfl
theorem sanity_check_16 : call_gemini_api (.response 200 " ```json\n1\n``` ") = .ret (some "\n1\n") := rfl
theorem sanity_check_17 : call_gemini_api (.response 200 "plain") = .ret (some "plain") := rfl
theorem sanity_check_18 : call_gemini_api (.response 500 "plain") = .ret none := rfl
theorem sanity_check_19 : call_gemini_api .requestError = .ret none := rfl
theorem sanity_check_20 : call_gemini_api (.badBody 200) = .exc := rfl
theorem sanity_check_21 : summarize_notice (fun _ => some ["T"]) (.response 200 "\x7b\x7d") (some [0]) =
    .response (respSuccess (Json.obj [])) true := rfl
theorem sanity_check_22 : summarize_notice (fun _ => some ["T"]) (.response 200 "") (some [0]) =
    .response respAiFailed true := rfl
theorem sanity_check_23 : summarize_notice (fun _ => none) .requestError (some [0]) =
    .response respUnreadable false := rfl
theorem sanity_check_24 : summarize_notice (fun _ => some []) .requestError (some [0]) =
    .response respUnreadable false := rfl
theorem sanity_check_25 : summarize_notice (fun _ => some ["T"]) .requestError none =
    .response respMissingFile false := rfl
theorem sanity_check_26 : summarize_notice (fun _ => some ["T"]) (.badBody 200) (some [0]) =
    .unhandled true := rfl

/-- Claim C1: when text extraction fails, the orchestration returns the
document-unreadable failure response and never invokes the AI generation
step; moreover generation is attempted only after an extraction that
succeeded with non-empty text. -/
theorem c1_extraction_failure_short_circuits (fitzParse : PdfParse) (u : Upstream) (b : List Nat)
    (h : extract_text_from_pdf fitzParse b = none) :
    summarize_notice fitzParse u (some b) = .response respUnreadable false
    ∧ ∀ (p : PdfParse) (v : Upstream) (f : Option (List Nat)),
        (summarize_notice p v f).aiCalled = true →
        ∃ bytes txt, f = some bytes ∧ extract_text_from_pdf p bytes = some txt ∧ txt ≠ "" := by
  constructor
  · simp [summarize_notice, h]
  · intro p v f hai
    match f with
    | none => simp [summarize_notice, SummarizeResult.aiCalled] at hai
    | some bytes =>
      match hx : extract_text_from_pdf p bytes with
      | none => simp [summarize_notice, hx, SummarizeResult.aiCalled] at hai
      | some txt =>
        by_cases ht : txt = ""
        · simp [summarize_notice, hx, ht, SummarizeResult.aiCalled] at hai
        · exact ⟨bytes, txt, rfl, hx, ht⟩

theorem c1_extraction_failure_short_circuits_witness :
    summarize_notice (fun _ => none) Upstream.requestError (some [37])
      = .response respUnreadable false :=
  (c1_extraction_failure_short_circuits (fun _ => none) Upstream.requestError [37] rfl).1

/-- Claim C2 counterexample: on a byte buffer that PyMuPDF parses as a PDF
with zero pages, `extract_text_from_pdf` returns the empty string as a
success value instead of signalling failure. -/
theorem c2_counterexample :
    extract_text_from_pdf (fun _ => some []) [1] = some ""
    ∧ extract_text_from_pdf (fun _ => some []) [1] ≠ none :=
  ⟨rfl, by decide⟩

/-- Claim C2 (amended): on a PDF that parses but yields no text (zero pages
or all pages empty), the extractor returns the empty string as a success
value - failure (`None`) is signalled only when parsing raises - and it is
the orchestration's truthiness test that then maps the empty string to the
document-unreadable error, so the endpoint still fails but the extractor
itself does not distinguish "no text" from "empty success". -/
theorem c2_empty_text_is_success_value (fitzParse : PdfParse) (b : List Nat) (pages : List String)
    (h : fitzParse b = some pages)
    (hempty : pages.foldl (fun acc t => acc ++ t) "" = "") :
    extract_text_from_pdf fitzParse b = some ""
    ∧ ∀ u, summarize_notice fitzParse u (some b) = .response respUnreadable false := by
  have hx : extract_text_from_pdf fitzParse b = some "" := by
    simp [extract_text_from_pdf, h, hempty]
  refine ⟨hx, fun u => ?_⟩
  simp [summarize_notice, hx]

theorem c2_empty_text_is_success_value_witness :
    extract_text_from_pdf (fun _ => some []) [2] = some ""
    ∧ summarize_notice (fun _ => some []) Upstream.requestError (some [2])
        = .response respUnreadable false :=
  ⟨(c2_empty_text_is_success_value (fun _ => some []) [2] [] rfl rfl).1,
   (c2_empty_text_is_success_value (fun _ => some []) [2] [] rfl rfl).2 Upstream.requestError⟩

/-- Claim C3 counterexample: the upstream text is the empty JSON object,
which parses but has none of the ten required keys, and the orchestration
still returns it inside a success envelope. -/
theorem c3_counterexample :
    hasAllRequiredKeys (Json.obj []) = false
    ∧ summarize_notice (fun _ => some ["T"]) (Upstream.response 200 "\x7b\x7d") (some [0])
        = .response (respSuccess (Json.obj [])) true :=
  ⟨rfl, rfl⟩

/-- Claim C3 (amended): the pipeline validates only JSON well-formedness of
the upstream text, not key presence: any non-empty text that parses is
returned in a success envelope regardless of which keys it contains, and
only unparseable text produces the schema-error failure response. -/
theorem c3_only_wellformedness_validated (fitzParse : PdfParse) (b : List Nat) (u : Upstream)
    (s : String)
    (hex : ∃ t, extract_text_from_pdf fitzParse b = some t ∧ t ≠ "")
    (hcall : call_gemini_api u = .ret (some s)) (hne : s ≠ "") :
    (∀ data, json_loads s = some data →
        summarize_notice fitzParse u (some b) = .response (respSuccess data) true)
    ∧ (json_loads s = none →
        summarize_notice fitzParse u (some b) = .response respInvalidFormat true) := by
  obtain ⟨t, hx, ht⟩ := hex
  constructor
  · intro data hj
    simp [summarize_notice, hx, ht, hcall, hne, hj]
  · intro hj
    simp [summarize_notice, hx, ht, hcall, hne, hj]

theorem c3_only_wellformedness_validated_witness :
    summarize_notice (fun _ => some ["T"]) (Upstream.response 200 "null") (some [0])
      = .response (respSuccess Json.null) true :=
  (c3_only_wellformedness_validated (fun _ => some ["T"]) [0] (Upstream.response 200 "null")
      "null" ⟨"T", rfl, by decide⟩ rfl (by decide)).1 Json.null rfl

/-- Claim C5: the outbound `requests.post` call on line 118 passes no
`timeout` keyword argument, so the `requests` default of no timeout applies
and the call can block unboundedly - contradicting the required bounded
timeout. -/
theorem c5_no_timeout_configured : gemini_post_timeout = none := rfl

/-- Claim C6 counterexample: two failures of the claim as stated.  A 200
response whose candidate text is the empty string is not valid JSON, yet
the orchestration returns the upstream-error message rather than the
schema-error one (Python truthiness conflates empty text with a failed
call); and a non-success 302 response is not mapped to the upstream-error
failure at all, because `raise_for_status` raises only for 400-599. -/
theorem c6_counterexample :
    (summarize_notice (fun _ => some ["T"]) (Upstream.response 200 "") (some [0])
        = .response respAiFailed true
      ∧ json_loads "" = none
      ∧ respAiFailed ≠ respInvalidFormat)
    ∧ summarize_notice (fun _ => some ["T"]) (Upstream.response 302 "true") (some [0])
        = .response (respSuccess (Json.bool true)) true := by
  refine ⟨⟨rfl, rfl, ?_⟩, rfl⟩
  intro h
  exact absurd (Option.some.inj (congrArg ApiResponse.message h)) (by decide)

/-- Claim C6 (amended): an upstream call that raises (connection error or
timeout) or returns an HTTP 400-599 status yields the upstream-error
failure; a response whose candidate text survives as a non-empty string
that is not valid JSON yields the schema-error failure; the two messages
are distinct; but an empty candidate text is conflated with the failed-call
case and gets the upstream-error message. -/
theorem c6_failure_mapping (fitzParse : PdfParse) (b : List Nat)
    (hex : ∃ t, extract_text_from_pdf fitzParse b = some t ∧ t ≠ "") :
    summarize_notice fitzParse Upstream.requestError (some b) = .response respAiFailed true
    ∧ (∀ s t, 400 ≤ s → s < 600 →
        summarize_notice fitzParse (.response s t) (some b) = .response respAiFailed true)
    ∧ (∀ u txt, call_gemini_api u = .ret (some txt) → txt ≠ "" → json_loads txt = none →
        summarize_notice fitzParse u (some b) = .response respInvalidFormat true)
    ∧ (∀ u, call_gemini_api u = .ret (some "") →
        summarize_notice fitzParse u (some b) = .response respAiFailed true)
    ∧ respAiFailed ≠ respInvalidFormat := by
  obtain ⟨t, hx, ht⟩ := hex
  refine ⟨?_, ?_, ?_, ?_, ?_⟩
  · simp [summarize_notice, hx, ht, call_gemini_api]
  · intro s txt h1 h2
    have hc : call_gemini_api (.response s txt) = .ret none := by
      simp [call_gemini_api, h1, h2]
    simp [summarize_notice, hx, ht, hc]
  · intro u txt hc hne hj
    simp [summarize_notice, hx, ht, hc, hne, hj]
  · intro u hc
    simp [summarize_notice, hx, ht, hc]
  · intro h
    exact absurd (Option.some.inj (congrArg ApiResponse.message h)) (by decide)

theorem c6_failure_mapping_witness :
    summarize_notice (fun _ => some ["T"])
        (Upstream.response 200 "Sorry, I cannot process this.") (some [0])
      = .response respInvalidFormat true
    ∧ summarize_notice (fun _ => some ["T"]) (Upstream.response 500 "x") (some [0])
      = .response respAiFailed true := by
  have h := c6_failure_mapping (fun _ => some ["T"]) [0] ⟨"T", rfl, by decide⟩
  exact ⟨h.2.2.1 (Upstream.response 200 "Sorry, I cannot process this.")
           "Sorry, I cannot process this." rfl (by decide) rfl,
         h.2.1 500 "x" (by decide) (by decide)⟩

/-- Claim C7: a well-formed upstream response whose text parses as a JSON
object carrying all the required schema keys is returned inside the success
envelope with the parsed object passed through unmodified. -/
theorem c7_schema_object_passed_through (fitzParse : PdfParse) (b : List Nat) (u : Upstream)
    (s : String) (data : Json)
    (hex : ∃ t, extract_text_from_pdf fitzParse b = some t ∧ t ≠ "")
    (hcall : call_gemini_api u = .ret (some s)) (hne : s ≠ "")
    (hparse : json_loads s = some data) (_hschema : hasAllRequiredKeys data = true) :
    summarize_notice fitzParse u (some b) = .response (respSuccess data) true := by
  obtain ⟨t, hx, ht⟩ := hex
  simp [summarize_notice, hx, ht, hcall, hne, hparse]

/-- Claim C8: on a PDF that parses into a list of pages with extractable
text, extraction succeeds with exactly the ordered concatenation of the
pages' text, and that string is non-empty. -/
theorem c8_ordered_concatenation (fitzParse : PdfParse) (b : List Nat) (pages : List String)
    (h : fitzParse b = some pages) (hne : String.join pages ≠ "") :
    extract_text_from_pdf fitzParse b = some (String.join pages)
    ∧ String.join pages ≠ "" := by
  refine ⟨?_, hne⟩
  simp [extract_text_from_pdf, h, String.join]

theorem c8_ordered_concatenation_witness :
    extract_text_from_pdf (fun _ => some ["page one ", "page two"]) [0]
      = some (String.join ["page one ", "page two"])
    ∧ String.join ["page one ", "page two"] ≠ "" :=
  c8_ordered_concatenation (fun _ => some ["page one ", "page two"]) [0]
    ["page one ", "page two"] rfl (by decide)

/-- Claim C9: a request without the `notice_pdf` multipart field does get
the structured missing-file envelope with status 400, and the handled
pipeline failures carry status 500; but the claim that every other
core-pipeline failure yields a structured response is contradicted by the
code: a 2xx upstream body without the `candidates` path raises a `KeyError`
on line 121 that the `except requests.exceptions.RequestException` clause
does not catch, so it propagates to Flask as an unhandled fault. -/
theorem c9_unhandled_fault_on_bad_body :
    summarize_notice (fun _ => some ["T"]) (Upstream.badBody 200) (some [0])
      = .unhandled true
    ∧ summarize_notice (fun _ => some ["T"]) Upstream.requestError none
      = .response respMissingFile false
    ∧ respMissingFile.status = 400
    ∧ respUnreadable.status = 500
    ∧ respAiFailed.status = 500
    ∧ respInvalidFormat.status = 500 :=
  ⟨rfl, rfl, rfl, rfl, rfl, rfl⟩

/-- Claim C10: whenever the stripped upstream text starts with the
seven-character fence marker, `call_gemini_api` returns the stripped text
with its first 7 and last 3 characters removed, regardless of how the text
ends - a trailing fence is never checked, so unterminated fences are
silently truncated. -/
theorem c10_fence_slice_unconditional (status : Nat) (t : String)
    (hok : ¬(400 ≤ status ∧ status < 600))
    (hpre : "```json".data.isPrefixOf (pyStrip t).data = true) :
    call_gemini_api (.response status t) = .ret (some (pySliceSevenNegThree (pyStrip t))) := by
  simp [call_gemini_api, hok, hpre]

theorem c10_fence_slice_unconditional_witness :
    call_gemini_api (.response 200 "```json\x7b\"a\":1") = .ret (some "\x7b\"a") := by
  have h := c10_fence_slice_unconditional 200 "```json\x7b\"a\":1" (by decide) rfl
  exact h.trans (by rfl)

theorem string_data_append (s t : String) : (s ++ t).data = s.data ++ t.data := rfl

/-- `str.strip()` leaves a string alone when its first and last characters
are not whitespace. -/
theorem stripList_eq_self (c d : Char) (m : List Char)
    (hc : pySpace c = false) (hd : pySpace d = false) :
    stripList (c :: (m ++ [d])) = c :: (m ++ [d]) := by
  unfold stripList
  have h1 : List.dropWhile pySpace (c :: (m ++ [d])) = c :: (m ++ [d]) := by
    simp [List.dropWhile_cons, hc]
  rw [h1]
  have h2 : (c :: (m ++ [d])).reverse = d :: (m.reverse ++ [c]) := by
    simp
  rw [h2]
  have h3 : List.dropWhile pySpace (d :: (m.reverse ++ [c])) = d :: (m.reverse ++ [c]) := by
    simp [List.dropWhile_cons, hd]
  rw [h3]
  simp

theorem prefix_fence_marker (X : List Char) :
    "```json".data.isPrefixOf ("```json\n".data ++ X) = true := rfl

/-- The branch of `call_gemini_api` taken when the HTTP status is usable and
the stripped text starts with the fence marker. -/
theorem call_gemini_api_fence (status : Nat) (t : String)
    (hok : ¬(400 ≤ status ∧ status < 600))
    (hpre : "```json".data.isPrefixOf (pyStrip t).data = true) :
    call_gemini_api (.response status t) = .ret (some (pySliceSevenNegThree (pyStrip t))) := by
  simp [call_gemini_api, hok, hpre]

/-- Claim C4: an upstream text consisting of a body wrapped in a markdown
fence opened by three backticks plus `json` and closed by three backticks
is returned with the fence stripped (for every such body `j`), and for the
spec's literal example the remaining text parses as JSON to the enclosed
object. -/
theorem c4_fence_stripped_then_parsed (j : String) :
    call_gemini_api (.response 200 ("```json\n" ++ j ++ "\n```"))
      = .ret (some ("\n" ++ j ++ "\n"))
    ∧ json_loads ("\n\x7b\"noticeFor\":\"X\"\x7d\n")
      = some (Json.obj [("noticeFor", Json.str "X")]) := by
  refine ⟨?_, rfl⟩
  obtain ⟨c, hc1, hc2⟩ : ∃ c, "`".data = [c] ∧ pySpace c = false := ⟨_, rfl, rfl⟩
  have hdata : ("```json\n" ++ j ++ "\n```").data
      = "```json\n".data ++ (j.data ++ "\n```".data) := by
    simp [string_data_append]
  have hF : ("```json\n" ++ j ++ "\n```").data
      = c :: (("``json\n".data ++ (j.data ++ "\n``".data)) ++ [c]) := by
    rw [hdata]
    rw [show "```json\n".data = "`".data ++ "``json\n".data from rfl]
    rw [show "\n```".data = "\n``".data ++ "`".data from rfl]
    rw [hc1]
    simp
  have hstrip : pyStrip ("```json\n" ++ j ++ "\n```") = "```json\n" ++ j ++ "\n```" := by
    unfold pyStrip
    rw [hF, stripList_eq_self c c _ hc2 hc2, ← hF]
  have hpre : "```json".data.isPrefixOf (pyStrip ("```json\n" ++ j ++ "\n```")).data = true := by
    rw [hstrip, hdata]
    exact prefix_fence_marker _
  have hslice : pySliceSevenNegThree ("```json\n" ++ j ++ "\n```") = "\n" ++ j ++ "\n" := by
    unfold pySliceSevenNegThree
    have hgroup : ("```json\n" ++ j ++ "\n```").data
        = ("```json\n".data ++ (j.data ++ "\n".data)) ++ "```".data := by
      rw [hdata]
      rw [show "\n```".data = "\n".data ++ "```".data from rfl]
      simp
    rw [hgroup]
    have hlen : (("```json\n".data ++ (j.data ++ "\n".data)) ++ "```".data).length - 3
        = ("```json\n".data ++ (j.data ++ "\n".data)).length := by
      rw [List.length_append, show ("```".data).length = 3 from rfl, Nat.add_sub_cancel]
    rw [hlen, List.take_left]
    have hgroup2 : "```json\n".data ++ (j.data ++ "\n".data)
        = "```json".data ++ ("\n".data ++ (j.data ++ "\n".data)) := by
      rw [show "```json\n".data = "```json".data ++ "\n".data from rfl]
      simp
    rw [hgroup2, List.drop_left' (by rfl)]
    exact congrArg String.mk (by simp [string_data_append])
  rw [call_gemini_api_fence 200 _ (by decide) hpre, hstrip, hslice]

/-- A complete upstream summary text carrying all ten schema keys, used to
instantiate the pass-through theorem. -/
def sampleSummaryText : String :=
  "\x7b\"noticeFor\":\"Jane Doe\",\"address\":\"1 Main St\",\"ssn\":\"XXX-XX-1234\",\"amountDue\":\"$100.00\",\"payBy\":\"Jan 1, 2030\",\"reason\":\"Balance due\",\"details\":[\"a\"],\"fixSteps\":\x7b\"agree\":\"pay\",\"disagree\":\"call\"\x7d,\"paymentOptions\":\x7b\"online\":\"o\",\"mail\":\"m\",\"plan\":\"p\"\x7d,\"helpNumber\":\"800-555-0100\"\x7d"

def sampleSummaryJson : Json :=
  Json.obj
    [("noticeFor", Json.str "Jane Doe"),
     ("address", Json.str "1 Main St"),
     ("ssn", Json.str "XXX-XX-1234"),
     ("amountDue", Json.str "$100.00"),
     ("payBy", Json.str "Jan 1, 2030"),
     ("reason", Json.str "Balance due"),
     ("details", Json.arr [Json.str "a"]),
     ("fixSteps", Json.obj [("agree", Json.str "pay"), ("disagree", Json.str "call")]),
     ("paymentOptions",
       Json.obj [("online", Json.str "o"), ("mail", Json.str "m"), ("plan", Json.str "p")]),
     ("helpNumber", Json.str "800-555-0100")]

theorem sanity_check_27 : json_loads sampleSummaryText = some sampleSummaryJson := rfl
theorem sanity_check_28 : hasAllRequiredKeys sampleSummaryJson = true := rfl

theorem c7_schema_object_passed_through_witness :
    summarize_notice (fun _ => some ["T"]) (Upstream.response 200 sampleSummaryText) (some [0])
      = .response (respSuccess sampleSummaryJson) true :=
  c7_schema_object_passed_through (fun _ => some ["T"]) [0]
    (Upstream.response 200 sampleSummaryText) sampleSummaryText sampleSummaryJson
    ⟨"T", rfl, by decide⟩ rfl (by decide) rfl rfl
